import Mathlib

/-!
Shallow embedding of `src/robustness/datasets.py` (the dataset-descriptor
layer of the robustness library) and proofs about its specification.

Modelling conventions:
* Python runtime values appearing in this module (ints, bools, strings,
  `None`, normalization tensors, transform pipelines, label-mapping
  objects, tuples) are embedded as the inductive type `Value`.  Tensor
  entries are recorded in ten-thousandths (e.g. `0.485` becomes `4850`):
  the module never computes with them, it only stores and forwards them,
  so an injective integer encoding is faithful and avoids floating point.
* Python `dict`s (keyword-argument mappings) are association lists
  `List (String × Value)` with first-match lookup; a Python dict has
  unique keys, and `{**d1, **d2}` is embedded by `dictMerge`.
* Python exceptions become `Except PyError`.  The spec's single
  `ConfigurationError` kind is the source's `ValueError`; a failed dict
  lookup (`imagenet_models.__dict__[arch]`) is Python's `KeyError`, a
  distinct exception class, and is embedded as such.
* The external collaborators (`loaders.make_loaders`,
  `imagenet_models.__dict__`) are out of scope; the embedding records the
  exact argument bundle the module hands to them.
-/

namespace RobustnessDatasets

/-- A coarse label group: either a numeric range of fine-grained class
indices (as in `constants.RESTRICTED_IMAGNET_RANGES`) or an explicit list
of WordNet ids (as in a caller-supplied `custom_grouping`). -/
inductive Group where
  | range (lo hi : Int)
  | wnids (ids : List String)
deriving DecidableEq, Repr

/-- The Python runtime type of an embedded value (what `type(x)` returns). -/
inductive PyType where
  | noneType
  | intType
  | boolType
  | strType
  | tensorType
  | transformType
  | labelMappingType
  | tupleType
deriving DecidableEq, Repr

/-- Embedded Python runtime values occurring in the module. -/
inductive Value where
  | null
  | int (n : Int)
  | bool (b : Bool)
  | str (s : String)
  | tensor (entries : List Int)
  | transform (name : String)
  | labelMapping (ds_name : String) (groups : List Group)
  | pair (fst snd : Value)
deriving DecidableEq, Repr

/-- `type(v)` for an embedded value. -/
def type_of : Value → PyType
  | .null => .noneType
  | .int _ => .intType
  | .bool _ => .boolType
  | .str _ => .strType
  | .tensor _ => .tensorType
  | .transform _ => .transformType
  | .labelMapping _ _ => .labelMappingType
  | .pair _ _ => .tupleType

/-- Python's `isinstance(v, t)`: true when `type(v)` is `t` or a subclass
of `t`.  Within this value universe the only proper subclass relation is
Python's `bool <: int`, so `isinstance(True, int)` holds. -/
def isinstance (v : Value) (t : PyType) : Bool :=
  type_of v == t || (type_of v == PyType.boolType && t == PyType.intType)

/-- A Python keyword-argument dict, as an association list (unique keys in
every dict the interpreter builds; lookup is first-match). -/
abbrev Dict := List (String × Value)

/-- Dict lookup (`d[k]` / `k in d`), first match. -/
def dictLookup : Dict → String → Option Value
  | [], _ => Option.none
  | (k, v) :: rest, key => if k == key then some v else dictLookup rest key

/-- Python `{**d1, **d2}`: keys of `d1` in order with `d2`'s value where
`d2` also binds the key, followed by the keys only `d2` binds. -/
def dictMerge (d1 d2 : Dict) : Dict :=
  d1.map (fun kv => (kv.1, (dictLookup d2 kv.1).getD kv.2)) ++
    d2.filter (fun kv => (dictLookup d1 kv.1).isNone)

/-- Structured payload of the source's `ValueError` messages (the spec's
`ConfigurationError`). -/
inductive ErrMsg where
  | missingArgs (fields : List String)
  | unrecognizedArgs (fields : List String)
  | typeMismatch (field : String) (expected : PyType)
  | unsupportedPretrained
deriving DecidableEq, Repr

/-- Exceptions this module raises.  `configurationError` embeds the
source's `ValueError` (named `ConfigurationError` by the spec);
`keyError` embeds Python's `KeyError` from a failed dict subscript. -/
inductive PyError where
  | configurationError (msg : ErrMsg)
  | keyError (key : String)
deriving DecidableEq, Repr

/-- Whether an exception is the spec's `ConfigurationError` kind. -/
def PyError.isConfigurationError : PyError → Bool
  | .configurationError _ => true
  | _ => false

/-- The loop body of `DataSet.override_args`: scan the override dict in
order; for a key also bound in `default_args` where neither side is
`None`, require `isinstance(kwargs[k], type(default_args[k]))`, raising
at the first offender. -/
def override_check (default_args : Dict) : Dict → Option PyError
  | [] => Option.none
  | (k, v) :: rest =>
    match dictLookup default_args k with
    | Option.none => override_check default_args rest
    | some dv =>
      if dv != Value.null && v != Value.null && !(isinstance v (type_of dv))
      then some (.configurationError (.typeMismatch k (type_of dv)))
      else override_check default_args rest

/-- `DataSet.override_args(default_args, kwargs)` (datasets.py lines
88-98): type-check the overrides against the defaults, then return the
merged dict `{**default_args, **kwargs}`. -/
def override_args (default_args kwargs : Dict) : Except PyError Dict :=
  match override_check default_args kwargs with
  | some e => .error e
  | Option.none => .ok (dictMerge default_args kwargs)

/-- The required constructor kwargs of `DataSet.__init__`. -/
def required_args : List String :=
  ["num_classes", "mean", "std", "transform_train", "transform_test"]

/-- The optional constructor kwargs of `DataSet.__init__`. -/
def optional_args : List String :=
  ["custom_class", "label_mapping", "custom_class_args"]

/-- A constructed dataset descriptor: the attributes `DataSet.__init__`
stores on `self`. -/
structure DataSet where
  ds_name : String
  data_path : String
  num_classes : Value
  mean : Value
  std : Value
  transform_train : Value
  transform_test : Value
  custom_class : Value
  label_mapping : Value
  custom_class_args : Value
deriving DecidableEq, Repr

/-- `DataSet.__init__(ds_name, data_path, **kwargs)` (datasets.py lines
45-86): reject missing required kwargs first, then unrecognized extra
kwargs, then store each required/optional field with the caller's value
if present, else `None`. -/
def DataSet.init (ds_name data_path : String) (kwargs : Dict) :
    Except PyError DataSet :=
  if (required_args.filter (fun k => (dictLookup kwargs k).isNone)).isEmpty then
    if ((kwargs.map Prod.fst).filter
        (fun k => !((required_args ++ optional_args).contains k))).isEmpty then
      .ok { ds_name := ds_name
            data_path := data_path
            num_classes := (dictLookup kwargs "num_classes").getD .null
            mean := (dictLookup kwargs "mean").getD .null
            std := (dictLookup kwargs "std").getD .null
            transform_train := (dictLookup kwargs "transform_train").getD .null
            transform_test := (dictLookup kwargs "transform_test").getD .null
            custom_class := (dictLookup kwargs "custom_class").getD .null
            label_mapping := (dictLookup kwargs "label_mapping").getD .null
            custom_class_args := (dictLookup kwargs "custom_class_args").getD .null }
    else .error (.configurationError (.unrecognizedArgs
      ((kwargs.map Prod.fst).filter
        (fun k => !((required_args ++ optional_args).contains k)))))
  else .error (.configurationError (.missingArgs
    (required_args.filter (fun k => (dictLookup kwargs k).isNone))))

/-- Caller options of `DataSet.make_loaders` (beyond `workers` and
`batch_size`, the keyword parameters with their call-site values). -/
structure LoaderOptions where
  workers : Value
  batch_size : Value
  data_aug : Value
  subset : Value
  subset_start : Value
  subset_type : Value
  val_batch_size : Value
  only_val : Value
  shuffle_train : Value
  shuffle_val : Value
  subset_seed : Value
deriving DecidableEq, Repr

/-- `DataSet.make_loaders` (datasets.py lines 118-172): the exact keyword
arguments the method passes to the external `loaders.make_loaders`
collaborator, as the kwargs dict of that call, in call-site order.  Note
`transforms` is the tuple `(transform_train, transform_test)` and the
`subset_seed` option is forwarded under the keyword `seed`. -/
def DataSet.make_loaders (d : DataSet) (o : LoaderOptions) : Dict :=
  [("workers", o.workers),
   ("batch_size", o.batch_size),
   ("transforms", Value.pair d.transform_train d.transform_test),
   ("data_path", Value.str d.data_path),
   ("data_aug", o.data_aug),
   ("dataset", Value.str d.ds_name),
   ("label_mapping", d.label_mapping),
   ("custom_class", d.custom_class),
   ("val_batch_size", o.val_batch_size),
   ("subset", o.subset),
   ("subset_start", o.subset_start),
   ("subset_type", o.subset_type),
   ("only_val", o.only_val),
   ("seed", o.subset_seed),
   ("shuffle_train", o.shuffle_train),
   ("shuffle_val", o.shuffle_val),
   ("custom_class_args", d.custom_class_args)]

/-- Modelled from the spec: the opaque preprocessing pipeline references
from the `data_augmentation` module (not under src/); the spec treats
pipelines as opaque references, so each is an opaque `transform` value. -/
def TRAIN_TRANSFORMS_IMAGENET : Value := .transform "TRAIN_TRANSFORMS_IMAGENET"

/-- Modelled from the spec: opaque test pipeline reference, see
`TRAIN_TRANSFORMS_IMAGENET`. -/
def TEST_TRANSFORMS_IMAGENET : Value := .transform "TEST_TRANSFORMS_IMAGENET"

/-- Modelled from the spec: `constants.RESTRICTED_IMAGNET_RANGES` (the
`tools.constants` module is not under src/) — the hard-coded superclass
ranges listed in the `RestrictedImageNet` docstring: dog 151-268, cat
281-285, frog 30-32, turtle 33-37, bird 80-100, monkey 365-382, fish
389-397, crab 118-121, insect 300-319. -/
def RESTRICTED_IMAGNET_RANGES : List Group :=
  [.range 151 268, .range 281 285, .range 30 32, .range 33 37,
   .range 80 100, .range 365 382, .range 389 397, .range 118 121,
   .range 300 319]

/-- Modelled from the spec: `tools.helpers.get_label_mapping` (not under
src/) builds the descriptor's label-mapping object from the dataset name
and the ordered group list; per spec §4.2 its group count is the length
of the group list.  Embedded as an opaque value recording its inputs. -/
def get_label_mapping (ds_name : String) (groups : List Group) : Value :=
  .labelMapping ds_name groups

/-- The number of coarse groups of a label-mapping value (spec §4.2:
`group_count = len(groups)`); `none` on a non-mapping value. -/
def numGroupsV : Value → Option Nat
  | .labelMapping _ groups => some groups.length
  | _ => Option.none

/-- The default `ds_kwargs` of `ImageNet.__init__` (datasets.py lines
189-197). -/
def imagenet_defaults : Dict :=
  [("num_classes", .int 1000),
   ("mean", .tensor [4850, 4560, 4060]),
   ("std", .tensor [2290, 2240, 2250]),
   ("custom_class", .null),
   ("label_mapping", .null),
   ("transform_train", TRAIN_TRANSFORMS_IMAGENET),
   ("transform_test", TEST_TRANSFORMS_IMAGENET)]

/-- `ImageNet.__init__(data_path, **kwargs)` (datasets.py lines 186-199):
fixed defaults merged with caller overrides via `override_args`, then
validated and stored by `DataSet.__init__`. -/
def ImageNet.mk (data_path : String) (kwargs : Dict) : Except PyError DataSet :=
  (override_args imagenet_defaults kwargs).bind (DataSet.init "imagenet" data_path)

/-- The default `ds_kwargs` of `RestrictedImageNet.__init__` (datasets.py
lines 265-274). -/
def restricted_defaults : Dict :=
  [("num_classes", .int RESTRICTED_IMAGNET_RANGES.length),
   ("mean", .tensor [4717, 4499, 3837]),
   ("std", .tensor [2600, 2516, 2575]),
   ("custom_class", .null),
   ("label_mapping", get_label_mapping "restricted_imagenet" RESTRICTED_IMAGNET_RANGES),
   ("transform_train", TRAIN_TRANSFORMS_IMAGENET),
   ("transform_test", TEST_TRANSFORMS_IMAGENET)]

/-- `RestrictedImageNet.__init__(data_path, **kwargs)` (datasets.py lines
261-277): `num_classes` defaults to the number of hard-coded ranges and
`label_mapping` to the mapping built from them. -/
def RestrictedImageNet.mk (data_path : String) (kwargs : Dict) :
    Except PyError DataSet :=
  (override_args restricted_defaults kwargs).bind
    (DataSet.init "restricted_imagenet" data_path)

/-- The default `ds_kwargs` of `CustomImageNet.__init__` (datasets.py
lines 301-310). -/
def custom_defaults (custom_grouping : List Group) : Dict :=
  [("num_classes", .int custom_grouping.length),
   ("mean", .tensor [4717, 4499, 3837]),
   ("std", .tensor [2600, 2516, 2575]),
   ("custom_class", .null),
   ("label_mapping", get_label_mapping "custom_imagenet" custom_grouping),
   ("transform_train", TRAIN_TRANSFORMS_IMAGENET),
   ("transform_test", TEST_TRANSFORMS_IMAGENET)]

/-- `CustomImageNet.__init__(data_path, custom_grouping, **kwargs)`
(datasets.py lines 297-313): `num_classes` defaults to
`len(custom_grouping)` and `label_mapping` to the mapping built from the
caller-supplied grouping. -/
def CustomImageNet.mk (data_path : String) (custom_grouping : List Group)
    (kwargs : Dict) : Except PyError DataSet :=
  (override_args (custom_defaults custom_grouping) kwargs).bind
    (DataSet.init "custom_imagenet" data_path)

/-- The request a `get_model` call hands to the architecture constructor
found in `imagenet_models.__dict__`: which constructor was selected and
the keyword arguments passed to it (`pretrained = Option.none` when the
call site omits the `pretrained` keyword). -/
structure ModelRequest where
  arch : String
  num_classes : Value
  pretrained : Option Bool
deriving DecidableEq, Repr

/-- `ImageNet.get_model(arch, pretrained)` (datasets.py lines 201-205):
`imagenet_models.__dict__[arch](num_classes=self.num_classes,
pretrained=pretrained)`.  The registry is the list of architecture names
`imagenet_models.__dict__` binds; an unknown subscript raises Python's
`KeyError`. -/
def ImageNet.get_model (registry : List String) (d : DataSet)
    (arch : String) (pretrained : Bool) : Except PyError ModelRequest :=
  if registry.contains arch then .ok ⟨arch, d.num_classes, some pretrained⟩
  else .error (.keyError arch)

/-- `RestrictedImageNet.get_model(arch, pretrained)` (datasets.py lines
279-284): raises `ValueError` when `pretrained`, else looks up `arch` and
calls the constructor with only `num_classes`. -/
def RestrictedImageNet.get_model (registry : List String) (d : DataSet)
    (arch : String) (pretrained : Bool) : Except PyError ModelRequest :=
  if pretrained then .error (.configurationError .unsupportedPretrained)
  else if registry.contains arch then .ok ⟨arch, d.num_classes, Option.none⟩
  else .error (.keyError arch)

/-- `CustomImageNet.get_model(arch, pretrained)` (datasets.py lines
315-320): identical to the restricted variant's. -/
def CustomImageNet.get_model (registry : List String) (d : DataSet)
    (arch : String) (pretrained : Bool) : Except PyError ModelRequest :=
  if pretrained then .error (.configurationError .unsupportedPretrained)
  else if registry.contains arch then .ok ⟨arch, d.num_classes, Option.none⟩
  else .error (.keyError arch)

/-! ### Dictionary lemmas -/

theorem dictLookup_isSome_iff (k : String) (l : Dict) :
    (dictLookup l k).isSome ↔ k ∈ l.map Prod.fst := by
  induction l with
  | nil => simp [dictLookup]
  | cons kv rest ih =>
      obtain ⟨k1, v1⟩ := kv
      by_cases h : k1 = k
      · subst h; simp [dictLookup]
      · simp [dictLookup, h, ih, Ne.symm h]

theorem dictLookup_eq_none_iff (k : String) (l : Dict) :
    dictLookup l k = Option.none ↔ k ∉ l.map Prod.fst := by
  rw [← dictLookup_isSome_iff k l]
  cases dictLookup l k <;> simp

theorem lookup_eq_some_getD {l : Dict} {k : String}
    (h : k ∈ l.map Prod.fst) :
    dictLookup l k = some ((dictLookup l k).getD Value.null) := by
  have hs := (dictLookup_isSome_iff k l).mpr h
  cases hl : dictLookup l k with
  | none => rw [hl] at hs; simp at hs
  | some v => rfl

theorem dictLookup_append (a b : Dict) (k : String) :
    dictLookup (a ++ b) k = (dictLookup a k).or (dictLookup b k) := by
  induction a with
  | nil => simp [dictLookup]
  | cons kv rest ih =>
      obtain ⟨k1, v1⟩ := kv
      by_cases h : k1 = k
      · subst h; simp [dictLookup]
      · simp [dictLookup, h, ih]

theorem dictLookup_map_override (d1 d2 : Dict) (k : String) :
    dictLookup (d1.map (fun kv => (kv.1, (dictLookup d2 kv.1).getD kv.2))) k =
      (dictLookup d1 k).map (fun v => (dictLookup d2 k).getD v) := by
  induction d1 with
  | nil => simp [dictLookup]
  | cons kv rest ih =>
      obtain ⟨k1, v1⟩ := kv
      by_cases h : k1 = k
      · subst h; simp [dictLookup]
      · simp [dictLookup, h, ih]

theorem dictLookup_filter_new (d1 d2 : Dict) (k : String) :
    dictLookup (d2.filter (fun kv => (dictLookup d1 kv.1).isNone)) k =
      if (dictLookup d1 k).isNone then dictLookup d2 k else Option.none := by
  induction d2 with
  | nil => simp [dictLookup]
  | cons kv rest ih =>
      obtain ⟨k1, v1⟩ := kv
      rw [List.filter_cons]
      by_cases h : k1 = k
      · subst h
        by_cases hn : (dictLookup d1 k1).isNone
        · simp [hn, dictLookup]
        · simp [hn, dictLookup, ih]
      · by_cases hn : (dictLookup d1 k1).isNone
        · simp [hn, dictLookup, h, ih]
        · simp [hn, dictLookup, h, ih]

/-- The lookup semantics of Python's `{**d1, **d2}`: `d2` wins, `d1` is
the fallback. -/
theorem dictLookup_merge (d1 d2 : Dict) (k : String) :
    dictLookup (dictMerge d1 d2) k = (dictLookup d2 k).or (dictLookup d1 k) := by
  unfold dictMerge
  rw [dictLookup_append, dictLookup_map_override, dictLookup_filter_new]
  cases h1 : dictLookup d1 k <;> cases h2 : dictLookup d2 k <;> simp

/-! ### Inversion lemmas for the embedded operations -/

theorem except_bind_ok {ε α β} {e : Except ε α} {f : α → Except ε β} {b : β}
    (h : e.bind f = .ok b) : ∃ a, e = .ok a ∧ f a = .ok b := by
  cases e with
  | error err => exact Except.noConfusion h
  | ok a => exact ⟨a, rfl, h⟩

theorem override_args_ok {default_args kwargs r : Dict}
    (h : override_args default_args kwargs = .ok r) :
    r = dictMerge default_args kwargs := by
  unfold override_args at h
  split at h
  · exact Except.noConfusion h
  · exact (Except.ok.inj h).symm

theorem DataSet.init_ok_inv {n p : String} {kw : Dict} {d : DataSet}
    (h : DataSet.init n p kw = .ok d) :
    required_args.filter (fun k => (dictLookup kw k).isNone) = [] ∧
    d = { ds_name := n
          data_path := p
          num_classes := (dictLookup kw "num_classes").getD .null
          mean := (dictLookup kw "mean").getD .null
          std := (dictLookup kw "std").getD .null
          transform_train := (dictLookup kw "transform_train").getD .null
          transform_test := (dictLookup kw "transform_test").getD .null
          custom_class := (dictLookup kw "custom_class").getD .null
          label_mapping := (dictLookup kw "label_mapping").getD .null
          custom_class_args := (dictLookup kw "custom_class_args").getD .null } := by
  unfold DataSet.init at h
  split at h
  · split at h
    · rename_i hm hx
      exact ⟨List.isEmpty_iff.mp hm, (Except.ok.inj h).symm⟩
    · exact Except.noConfusion h
  · exact Except.noConfusion h

theorem DataSet.init_ok_of {n p : String} {kw : Dict}
    (hm : required_args.filter (fun k => (dictLookup kw k).isNone) = [])
    (hx : (kw.map Prod.fst).filter
      (fun k => !((required_args ++ optional_args).contains k)) = []) :
    DataSet.init n p kw =
      .ok { ds_name := n
            data_path := p
            num_classes := (dictLookup kw "num_classes").getD .null
            mean := (dictLookup kw "mean").getD .null
            std := (dictLookup kw "std").getD .null
            transform_train := (dictLookup kw "transform_train").getD .null
            transform_test := (dictLookup kw "transform_test").getD .null
            custom_class := (dictLookup kw "custom_class").getD .null
            label_mapping := (dictLookup kw "label_mapping").getD .null
            custom_class_args := (dictLookup kw "custom_class_args").getD .null } := by
  unfold DataSet.init
  rw [hm, hx]
  rfl

theorem DataSet.init_missing_error {n p : String} {kw : Dict}
    (h : required_args.filter (fun k => (dictLookup kw k).isNone) ≠ []) :
    DataSet.init n p kw = .error (.configurationError (.missingArgs
      (required_args.filter (fun k => (dictLookup kw k).isNone)))) := by
  unfold DataSet.init
  rw [if_neg (fun hh => h (List.isEmpty_iff.mp hh))]

/-- Soundness of the override type check: an error can only arise from an
override entry whose key has a non-null default, a non-null value, and a
value that is not an instance of the default's type, and the error names
that key and that type. -/
theorem override_check_sound (default_args kwargs : Dict) (e : PyError)
    (h : override_check default_args kwargs = some e) :
    ∃ kv ∈ kwargs, ∃ dv, dictLookup default_args kv.1 = some dv ∧
      dv ≠ Value.null ∧ kv.2 ≠ Value.null ∧
      isinstance kv.2 (type_of dv) = false ∧
      e = .configurationError (.typeMismatch kv.1 (type_of dv)) := by
  induction kwargs with
  | nil => exact Option.noConfusion h
  | cons hd rest ih =>
      obtain ⟨k, v⟩ := hd
      unfold override_check at h
      split at h
      · obtain ⟨kv', hmem', hP⟩ := ih h
        exact ⟨kv', List.mem_cons_of_mem _ hmem', hP⟩
      · rename_i dv hdl
        split at h
        · rename_i hcond
          simp only [Bool.and_eq_true, bne_iff_ne, Bool.not_eq_true'] at hcond
          obtain ⟨⟨hdv, hv⟩, hinst⟩ := hcond
          exact ⟨(k, v), List.mem_cons_self _ _, dv, hdl, hdv, hv, hinst,
            (Option.some.inj h).symm⟩
        · obtain ⟨kv', hmem', hP⟩ := ih h
          exact ⟨kv', List.mem_cons_of_mem _ hmem', hP⟩

/-- Completeness of the override type check: an offending override entry
forces an error. -/
theorem override_check_complete (default_args kwargs : Dict)
    (bk : String) (bv : Value) (hmem : (bk, bv) ∈ kwargs) (dv : Value)
    (hdl : dictLookup default_args bk = some dv)
    (hdv : dv ≠ Value.null) (hv : bv ≠ Value.null)
    (hinst : isinstance bv (type_of dv) = false) :
    override_check default_args kwargs ≠ Option.none := by
  induction kwargs with
  | nil => cases hmem
  | cons hd rest ih =>
      obtain ⟨k, v⟩ := hd
      unfold override_check
      split
      · rename_i hnone
        rcases List.mem_cons.mp hmem with heq | hmem'
        · injection heq with h1 h2
          subst h1
          rw [hdl] at hnone
          exact Option.noConfusion hnone
        · exact ih hmem'
      · rename_i dv0 hdl0
        split
        · exact fun hcontra => Option.noConfusion hcontra
        · rename_i hc
          rcases List.mem_cons.mp hmem with heq | hmem'
          · injection heq with h1 h2
            subst h1
            subst h2
            rw [hdl] at hdl0
            have hdv0 : dv = dv0 := Option.some.inj hdl0
            subst hdv0
            exact absurd (by simp [bne_iff_ne, hdv, hv, hinst]) hc
          · exact ih hmem'

/-! ### Concrete inputs used by counterexamples and witnesses -/

/-- The descriptor `ImageNet('/data')` constructs (no overrides). -/
def imagenetD : DataSet where
  ds_name := "imagenet"
  data_path := "/data"
  num_classes := .int 1000
  mean := .tensor [4850, 4560, 4060]
  std := .tensor [2290, 2240, 2250]
  transform_train := TRAIN_TRANSFORMS_IMAGENET
  transform_test := TEST_TRANSFORMS_IMAGENET
  custom_class := .null
  label_mapping := .null
  custom_class_args := .null

/-- A concrete set of `make_loaders` caller options (the call-site
defaults with `workers=8, batch_size=128`). -/
def loaderOpts : LoaderOptions where
  workers := .int 8
  batch_size := .int 128
  data_aug := .bool true
  subset := .null
  subset_start := .int 0
  subset_type := .str "rand"
  val_batch_size := .null
  only_val := .bool false
  shuffle_train := .bool true
  shuffle_val := .bool true
  subset_seed := .null

/-- Kwargs binding exactly the five required fields. -/
def exactKwargs : Dict :=
  [("num_classes", .int 10),
   ("mean", .tensor [1, 2, 3]),
   ("std", .tensor [4, 5, 6]),
   ("transform_train", .transform "tt"),
   ("transform_test", .transform "te")]

/-- Kwargs missing `mean` and `std` and carrying an unrecognized key. -/
def missingKwargs : Dict :=
  [("num_classes", .int 10),
   ("transform_train", .transform "tt"),
   ("transform_test", .transform "te"),
   ("bogus", .int 1)]

/-- Kwargs binding all five required fields but with explicitly null
normalization statistics. -/
def nullStatsKwargs : Dict :=
  [("num_classes", .int 10), ("mean", .null), ("std", .null),
   ("transform_train", .transform "tt"), ("transform_test", .transform "te")]

/-- The descriptor `DataSet.__init__` builds from `nullStatsKwargs`. -/
def nullStatsD : DataSet where
  ds_name := "ds"
  data_path := "/p"
  num_classes := .int 10
  mean := .null
  std := .null
  transform_train := .transform "tt"
  transform_test := .transform "te"
  custom_class := .null
  label_mapping := .null
  custom_class_args := .null

/-- The descriptor `RestrictedImageNet('/data')` constructs (no
overrides). -/
def restrictedD : DataSet where
  ds_name := "restricted_imagenet"
  data_path := "/data"
  num_classes := .int 9
  mean := .tensor [4717, 4499, 3837]
  std := .tensor [2600, 2516, 2575]
  transform_train := TRAIN_TRANSFORMS_IMAGENET
  transform_test := TEST_TRANSFORMS_IMAGENET
  custom_class := .null
  label_mapping := .labelMapping "restricted_imagenet" RESTRICTED_IMAGNET_RANGES
  custom_class_args := .null

/-- A concrete caller-supplied grouping with two coarse groups. -/
def grouping0 : List Group :=
  [.wnids ["n01440764", "n01443537"], .wnids ["n01484850"]]

/-- The descriptor `CustomImageNet('/data', grouping0)` constructs (no
overrides). -/
def customD : DataSet where
  ds_name := "custom_imagenet"
  data_path := "/data"
  num_classes := .int 2
  mean := .tensor [4717, 4499, 3837]
  std := .tensor [2600, 2516, 2575]
  transform_train := TRAIN_TRANSFORMS_IMAGENET
  transform_test := TEST_TRANSFORMS_IMAGENET
  custom_class := .null
  label_mapping := .labelMapping "custom_imagenet" grouping0
  custom_class_args := .null

/-- The descriptor `RestrictedImageNet('/data', num_classes=5)`
constructs: the override is accepted (int for int) and leaves the
hard-coded 9-group label mapping in place. -/
def restrictedOverriddenD : DataSet where
  ds_name := "restricted_imagenet"
  data_path := "/data"
  num_classes := .int 5
  mean := .tensor [4717, 4499, 3837]
  std := .tensor [2600, 2516, 2575]
  transform_train := TRAIN_TRANSFORMS_IMAGENET
  transform_test := TEST_TRANSFORMS_IMAGENET
  custom_class := .null
  label_mapping := .labelMapping "restricted_imagenet" RESTRICTED_IMAGNET_RANGES
  custom_class_args := .null

/-! ### Claim C1 -/

/-- C1 is false as stated on the code: `make_loaders` forwards the data
path, pipelines, label mapping and caller options to the external loader
collaborator, but the descriptor's normalization statistics (`mean`,
`std`) appear nowhere in the forwarded argument bundle.  Concretely, on
the default-constructed ImageNet descriptor neither statistic occurs
among the forwarded values. -/
theorem make_loaders_omits_stats_cex :
    ImageNet.mk "/data" [] = .ok imagenetD ∧
    imagenetD.mean = Value.tensor [4850, 4560, 4060] ∧
    imagenetD.std = Value.tensor [2290, 2240, 2250] ∧
    Value.tensor [4850, 4560, 4060] ∉ (imagenetD.make_loaders loaderOpts).map Prod.snd ∧
    Value.tensor [2290, 2240, 2250] ∉ (imagenetD.make_loaders loaderOpts).map Prod.snd :=
  ⟨rfl, rfl, rfl, by decide, by decide⟩

/-- C1 (amended): every call to `make_loaders` forwards to the loader
collaborator the descriptor's root location, the train/test pipeline
pair, the label mapping, the custom-class fields and the dataset name,
together with the caller's options (the subset seed under the keyword
`seed`), and forwards no `mean` or `std` argument. -/
theorem make_loaders_forwarding (d : DataSet) (o : LoaderOptions) :
    dictLookup (d.make_loaders o) "data_path" = some (.str d.data_path) ∧
    dictLookup (d.make_loaders o) "transforms" =
      some (.pair d.transform_train d.transform_test) ∧
    dictLookup (d.make_loaders o) "label_mapping" = some d.label_mapping ∧
    dictLookup (d.make_loaders o) "custom_class" = some d.custom_class ∧
    dictLookup (d.make_loaders o) "custom_class_args" = some d.custom_class_args ∧
    dictLookup (d.make_loaders o) "dataset" = some (.str d.ds_name) ∧
    dictLookup (d.make_loaders o) "workers" = some o.workers ∧
    dictLookup (d.make_loaders o) "batch_size" = some o.batch_size ∧
    dictLookup (d.make_loaders o) "data_aug" = some o.data_aug ∧
    dictLookup (d.make_loaders o) "subset" = some o.subset ∧
    dictLookup (d.make_loaders o) "subset_start" = some o.subset_start ∧
    dictLookup (d.make_loaders o) "subset_type" = some o.subset_type ∧
    dictLookup (d.make_loaders o) "val_batch_size" = some o.val_batch_size ∧
    dictLookup (d.make_loaders o) "only_val" = some o.only_val ∧
    dictLookup (d.make_loaders o) "seed" = some o.subset_seed ∧
    dictLookup (d.make_loaders o) "shuffle_train" = some o.shuffle_train ∧
    dictLookup (d.make_loaders o) "shuffle_val" = some o.shuffle_val ∧
    dictLookup (d.make_loaders o) "mean" = Option.none ∧
    dictLookup (d.make_loaders o) "std" = Option.none :=
  ⟨rfl, rfl, rfl, rfl, rfl, rfl, rfl, rfl, rfl, rfl, rfl, rfl, rfl, rfl,
   rfl, rfl, rfl, rfl, rfl⟩

/-! ### Claim C2 -/

/-- C2 is false as stated: the source checks
`isinstance(override, type(default))`, not exact runtime-type equality.
Python's `bool` is a subclass of `int`, so a bool override of a non-null
int default is accepted even though the concrete runtime types differ —
no error is raised where the claim requires one. -/
theorem override_args_exact_type_cex :
    override_args [("a", Value.int 5)] [("a", Value.bool true)] =
      .ok [("a", Value.bool true)] ∧
    type_of (Value.bool true) ≠ type_of (Value.int 5) ∧
    Value.bool true ≠ Value.null ∧
    Value.int 5 ≠ Value.null ∧
    dictLookup [("a", Value.int 5)] "a" = some (Value.int 5) ∧
    dictLookup [("a", Value.bool true)] "a" = some (Value.bool true) :=
  ⟨rfl, by decide, by decide, by decide, rfl, rfl⟩

/-- C2 (amended): `override_args` raises a `ConfigurationError` naming
the offending field and the default's runtime type if and only if some
entry of the override mapping has a key with a non-null default value
and a non-null override value that is not an `isinstance` of the
default's runtime type (an instance of a subclass — Python's `bool`
overriding an `int` default — is accepted, so exact type equality is not
required); in particular, when for every shared key the default or the
override is null, no error is raised. -/
theorem override_args_type_check (default_args kwargs : Dict) :
    (∀ e, override_args default_args kwargs = .error e →
       ∃ kv ∈ kwargs, ∃ dv, dictLookup default_args kv.1 = some dv ∧
         dv ≠ Value.null ∧ kv.2 ≠ Value.null ∧
         isinstance kv.2 (type_of dv) = false ∧
         e = .configurationError (.typeMismatch kv.1 (type_of dv))) ∧
    ((∃ kv ∈ kwargs, ∃ dv, dictLookup default_args kv.1 = some dv ∧
         dv ≠ Value.null ∧ kv.2 ≠ Value.null ∧
         isinstance kv.2 (type_of dv) = false) →
       ∃ e, override_args default_args kwargs = .error e) := by
  constructor
  · intro e h
    have hc : override_check default_args kwargs = some e := by
      unfold override_args at h
      split at h
      · rename_i e0 he0
        rw [(Except.error.inj h : e0 = e)] at he0
        exact he0
      · exact Except.noConfusion h
    exact override_check_sound default_args kwargs e hc
  · rintro ⟨⟨bk, bv⟩, hmem, dv, hdl, hdv, hv, hinst⟩
    have hne := override_check_complete default_args kwargs bk bv hmem dv hdl hdv hv hinst
    cases hoc : override_check default_args kwargs with
    | none => exact absurd hoc hne
    | some e =>
        refine ⟨e, ?_⟩
        unfold override_args
        rw [hoc]

/-- Witness for C2 (amended) at the spec's own example
`OverrideDefaults({a: 5}, {a: "x"})`: the mismatch forces an error. -/
theorem override_args_type_check_witness :
    ∃ e, override_args [("a", Value.int 5)] [("a", Value.str "x")] = .error e :=
  (override_args_type_check [("a", Value.int 5)] [("a", Value.str "x")]).2
    ⟨("a", Value.str "x"), by decide, Value.int 5, rfl, by decide, by decide, rfl⟩

/-! ### Claim C3 -/

/-- C3: for every kwargs mapping whose key set is exactly the five
required fields, `DataSet.__init__` succeeds, the required fields of the
resulting descriptor equal the supplied values, and the three optional
fields are null. -/
theorem construct_with_exact_required_fields (ds_name data_path : String)
    (kwargs : Dict)
    (hperm : List.Perm (kwargs.map Prod.fst) required_args) :
    ∃ d, DataSet.init ds_name data_path kwargs = .ok d ∧
      dictLookup kwargs "num_classes" = some d.num_classes ∧
      dictLookup kwargs "mean" = some d.mean ∧
      dictLookup kwargs "std" = some d.std ∧
      dictLookup kwargs "transform_train" = some d.transform_train ∧
      dictLookup kwargs "transform_test" = some d.transform_test ∧
      d.custom_class = Value.null ∧
      d.label_mapping = Value.null ∧
      d.custom_class_args = Value.null := by
  have hmemiff : ∀ k, k ∈ kwargs.map Prod.fst ↔ k ∈ required_args :=
    fun k => hperm.mem_iff
  have hm : required_args.filter (fun k => (dictLookup kwargs k).isNone) = [] := by
    rw [List.filter_eq_nil_iff]
    intro a ha
    have hmem : a ∈ kwargs.map Prod.fst := (hmemiff a).mpr ha
    have hs := (dictLookup_isSome_iff a kwargs).mpr hmem
    cases hl : dictLookup kwargs a with
    | none => rw [hl] at hs; simp at hs
    | some v => simp [hl]
  have hx : (kwargs.map Prod.fst).filter
      (fun k => !((required_args ++ optional_args).contains k)) = [] := by
    rw [List.filter_eq_nil_iff]
    intro a ha
    have hreq : a ∈ required_args := (hmemiff a).mp ha
    have happ : a ∈ required_args ++ optional_args := List.mem_append_left _ hreq
    simp [happ]
  have hopt : ∀ k, k ∉ required_args →
      (dictLookup kwargs k).getD Value.null = Value.null := by
    intro k hk
    rw [(dictLookup_eq_none_iff k kwargs).mpr (fun hmem => hk ((hmemiff k).mp hmem))]
    rfl
  refine ⟨_, DataSet.init_ok_of hm hx, ?_, ?_, ?_, ?_, ?_, ?_, ?_, ?_⟩
  · exact lookup_eq_some_getD ((hmemiff _).mpr (by simp [required_args]))
  · exact lookup_eq_some_getD ((hmemiff _).mpr (by simp [required_args]))
  · exact lookup_eq_some_getD ((hmemiff _).mpr (by simp [required_args]))
  · exact lookup_eq_some_getD ((hmemiff _).mpr (by simp [required_args]))
  · exact lookup_eq_some_getD ((hmemiff _).mpr (by simp [required_args]))
  · exact hopt "custom_class" (by simp [required_args])
  · exact hopt "label_mapping" (by simp [required_args])
  · exact hopt "custom_class_args" (by simp [required_args])

/-- Witness for C3 at a concrete kwargs mapping binding exactly the five
required fields. -/
theorem construct_with_exact_required_fields_witness :
    List.Perm (exactKwargs.map Prod.fst) required_args ∧
    (∃ d, DataSet.init "ds" "/p" exactKwargs = .ok d ∧
      dictLookup exactKwargs "num_classes" = some d.num_classes ∧
      dictLookup exactKwargs "mean" = some d.mean ∧
      dictLookup exactKwargs "std" = some d.std ∧
      dictLookup exactKwargs "transform_train" = some d.transform_train ∧
      dictLookup exactKwargs "transform_test" = some d.transform_test ∧
      d.custom_class = Value.null ∧
      d.label_mapping = Value.null ∧
      d.custom_class_args = Value.null) :=
  ⟨List.Perm.refl _,
   construct_with_exact_required_fields "ds" "/p" exactKwargs (List.Perm.refl _)⟩

/-! ### Claim C4 -/

/-- C4: for every kwargs mapping missing at least one required field
(regardless of any unrecognized keys it may also contain — the missing
check runs first), `DataSet.__init__` fails with a `ConfigurationError`
whose payload contains exactly the missing required fields, in
particular every one of them. -/
theorem construct_missing_fields_error (ds_name data_path : String)
    (kwargs : Dict) (k : String)
    (hk : k ∈ required_args) (hmiss : dictLookup kwargs k = Option.none) :
    ∃ L, DataSet.init ds_name data_path kwargs =
        .error (.configurationError (.missingArgs L)) ∧
      ∀ r, r ∈ L ↔ (r ∈ required_args ∧ dictLookup kwargs r = Option.none) := by
  have hne : required_args.filter (fun r => (dictLookup kwargs r).isNone) ≠ [] := by
    intro hnil
    have hmem : k ∈ required_args.filter (fun r => (dictLookup kwargs r).isNone) :=
      List.mem_filter.mpr ⟨hk, by rw [hmiss]; rfl⟩
    rw [hnil] at hmem
    cases hmem
  refine ⟨_, DataSet.init_missing_error hne, ?_⟩
  intro r
  rw [List.mem_filter]
  constructor
  · rintro ⟨h1, h2⟩
    exact ⟨h1, Option.isNone_iff_eq_none.mp h2⟩
  · rintro ⟨h1, h2⟩
    exact ⟨h1, by rw [h2]; rfl⟩

/-- Witness for C4: kwargs missing `mean` and `std` while also carrying
the unrecognized key `bogus` still fail on the missing fields. -/
theorem construct_missing_fields_error_witness :
    "mean" ∈ required_args ∧
    dictLookup missingKwargs "mean" = Option.none ∧
    (∃ L, DataSet.init "ds" "/p" missingKwargs =
        .error (.configurationError (.missingArgs L)) ∧
      ∀ r, r ∈ L ↔ (r ∈ required_args ∧ dictLookup missingKwargs r = Option.none)) :=
  ⟨by decide, rfl,
   construct_missing_fields_error "ds" "/p" missingKwargs "mean" (by decide) rfl⟩

/-! ### Claim C5 -/

/-- C5: when `override_args` does not raise, its result has Python's
`{**defaults, **overrides}` lookup semantics: every key of the override
mapping maps to its override value (an explicitly null override included),
keys only in the defaults keep their default value, and keys only in the
overrides are passed through unchecked.  The embedding is pure, matching
the source's absence of side effects on its arguments. -/
theorem override_args_merge_semantics (default_args kwargs result : Dict)
    (k : String) (h : override_args default_args kwargs = .ok result) :
    dictLookup result k = (dictLookup kwargs k).or (dictLookup default_args k) := by
  rw [override_args_ok h, dictLookup_merge]

/-- Witness for C5 at the spec's example `OverrideDefaults({a: 5}, {a: 9})`. -/
theorem override_args_merge_semantics_witness :
    override_args [("a", Value.int 5)] [("a", Value.int 9)] =
      .ok [("a", Value.int 9)] ∧
    dictLookup [("a", Value.int 9)] "a" =
      (dictLookup [("a", Value.int 9)] "a").or (dictLookup [("a", Value.int 5)] "a") :=
  ⟨rfl, override_args_merge_semantics [("a", Value.int 5)] [("a", Value.int 9)]
    [("a", Value.int 9)] "a" rfl⟩

/-! ### Claim C6 -/

/-- C6 is false as stated: construction only checks that the required
keys are present, never that their values are non-null, so kwargs that
explicitly supply `mean = None` and `std = None` construct successfully
and the resulting descriptor's statistics are null. -/
theorem construct_null_stats_cex :
    DataSet.init "ds" "/p" nullStatsKwargs = .ok nullStatsD ∧
    nullStatsD.mean = Value.null ∧ nullStatsD.std = Value.null :=
  ⟨rfl, rfl, rfl⟩

/-- C6 (amended): every successful construction has the `mean` and `std`
keys present in its kwargs, and the descriptor's `mean` and `std` fields
equal the supplied values — which may be explicitly null, since only key
presence is validated. -/
theorem construct_stats_presence (n p : String) (kw : Dict) (d : DataSet)
    (h : DataSet.init n p kw = .ok d) :
    dictLookup kw "mean" = some d.mean ∧ dictLookup kw "std" = some d.std := by
  obtain ⟨hm, hd⟩ := DataSet.init_ok_inv h
  have hmean : "mean" ∈ kw.map Prod.fst := by
    by_contra hc
    have hnone : dictLookup kw "mean" = Option.none :=
      (dictLookup_eq_none_iff _ _).mpr hc
    have hmem : "mean" ∈ required_args.filter (fun k => (dictLookup kw k).isNone) :=
      List.mem_filter.mpr ⟨by simp [required_args], by rw [hnone]; rfl⟩
    rw [hm] at hmem
    cases hmem
  have hstd : "std" ∈ kw.map Prod.fst := by
    by_contra hc
    have hnone : dictLookup kw "std" = Option.none :=
      (dictLookup_eq_none_iff _ _).mpr hc
    have hmem : "std" ∈ required_args.filter (fun k => (dictLookup kw k).isNone) :=
      List.mem_filter.mpr ⟨by simp [required_args], by rw [hnone]; rfl⟩
    rw [hm] at hmem
    cases hmem
  subst hd
  exact ⟨lookup_eq_some_getD hmean, lookup_eq_some_getD hstd⟩

/-- Witness for C6 (amended) at the null-statistics kwargs. -/
theorem construct_stats_presence_witness :
    DataSet.init "ds" "/p" nullStatsKwargs = .ok nullStatsD ∧
    (dictLookup nullStatsKwargs "mean" = some nullStatsD.mean ∧
     dictLookup nullStatsKwargs "std" = some nullStatsD.std) :=
  ⟨rfl, construct_stats_presence "ds" "/p" nullStatsKwargs nullStatsD rfl⟩

/-! ### Claim C7 -/

/-- C7 is false as stated: with an architecture name absent from the
registry, `ImageNet.get_model(arch, pretrained=False)` fails with
Python's `KeyError` raised by the registry subscript
`imagenet_models.__dict__[arch]` — a different error kind — not with the
single `ConfigurationError` kind (the source's `ValueError`). -/
theorem unknown_arch_error_kind_cex :
    (["resnet18", "resnet50"] : List String).contains "alexnet" = false ∧
    ImageNet.get_model ["resnet18", "resnet50"] imagenetD "alexnet" false =
      .error (.keyError "alexnet") ∧
    PyError.isConfigurationError (.keyError "alexnet") = false :=
  ⟨rfl, rfl, rfl⟩

/-- C7 (amended): for every architecture name not present in the
registry, `ImageNet.get_model` with `pretrained=False` fails with a
`KeyError` naming the architecture — a lookup error, not the
`ConfigurationError` kind. -/
theorem unknown_arch_keyerror (registry : List String) (d : DataSet)
    (arch : String) (h : registry.contains arch = false) :
    ImageNet.get_model registry d arch false = .error (.keyError arch) ∧
    PyError.isConfigurationError (.keyError arch) = false := by
  have hmem : arch ∉ registry := by simpa using h
  constructor
  · simp [ImageNet.get_model, hmem]
  · rfl

/-- Witness for C7 (amended) at a concrete registry miss. -/
theorem unknown_arch_keyerror_witness :
    (["resnet18"] : List String).contains "vgg16" = false ∧
    (ImageNet.get_model ["resnet18"] imagenetD "vgg16" false =
        .error (.keyError "vgg16") ∧
     PyError.isConfigurationError (.keyError "vgg16") = false) :=
  ⟨rfl, unknown_arch_keyerror ["resnet18"] imagenetD "vgg16" rfl⟩

/-! ### Claim C8 -/

/-- C8: for every descriptor constructed by the restricted-superclass
variant or the custom-grouping variant (the two label-mapped variants)
and every architecture name, `get_model` with `pretrained=True` fails
with a `ConfigurationError` (the source's
`ValueError("Dataset doesn't support pytorch_pretrained")`), before any
registry lookup. -/
theorem pretrained_rejected_for_label_mapped
    (data_path data_path2 : String) (grouping : List Group)
    (kwargs kwargs2 : Dict) (d d2 : DataSet)
    (registry registry2 : List String) (arch arch2 : String)
    (h1 : RestrictedImageNet.mk data_path kwargs = .ok d)
    (h2 : CustomImageNet.mk data_path2 grouping kwargs2 = .ok d2) :
    RestrictedImageNet.get_model registry d arch true =
      .error (.configurationError .unsupportedPretrained) ∧
    CustomImageNet.get_model registry2 d2 arch2 true =
      .error (.configurationError .unsupportedPretrained) :=
  ⟨rfl, rfl⟩

/-- Witness for C8 on concretely constructed descriptors of both
label-mapped variants. -/
theorem pretrained_rejected_for_label_mapped_witness :
    RestrictedImageNet.mk "/data" [] = .ok restrictedD ∧
    CustomImageNet.mk "/data" grouping0 [] = .ok customD ∧
    (RestrictedImageNet.get_model ["resnet18"] restrictedD "resnet18" true =
        .error (.configurationError .unsupportedPretrained) ∧
     CustomImageNet.get_model ["resnet18"] customD "resnet18" true =
        .error (.configurationError .unsupportedPretrained)) :=
  ⟨rfl, rfl,
   pretrained_rejected_for_label_mapped "/data" "/data" grouping0 [] []
     restrictedD customD ["resnet18"] ["resnet18"] "resnet18" "resnet18" rfl rfl⟩

/-! ### Claim C9 -/

/-- C9 is false as stated: overriding `num_classes` at construction of
the restricted-superclass variant is accepted (int for int) and leaves
the hard-coded 9-group label mapping, producing a descriptor whose
non-null label mapping has 9 coarse groups while `num_classes` is 5. -/
theorem class_count_override_cex :
    RestrictedImageNet.mk "/data" [("num_classes", Value.int 5)] =
      .ok restrictedOverriddenD ∧
    restrictedOverriddenD.label_mapping ≠ Value.null ∧
    numGroupsV restrictedOverriddenD.label_mapping = some 9 ∧
    restrictedOverriddenD.num_classes = Value.int 5 ∧
    restrictedOverriddenD.num_classes ≠ Value.int 9 :=
  ⟨rfl, by decide, rfl, rfl, by decide⟩

/-- C9 (amended): for constructions that override neither `num_classes`
nor `label_mapping` (in particular constructions without overrides), a
restricted-superclass descriptor has `num_classes` equal to the number
of hard-coded superclass ranges and that is the group count of its label
mapping, and a custom-grouping descriptor has `num_classes` equal to the
length of the caller-supplied grouping, the group count of its label
mapping. -/
theorem class_count_matches_group_count
    (data_path data_path2 : String) (grouping : List Group)
    (kwargs kwargs2 : Dict) (d d2 : DataSet)
    (hnc : dictLookup kwargs "num_classes" = Option.none)
    (hlm : dictLookup kwargs "label_mapping" = Option.none)
    (hnc2 : dictLookup kwargs2 "num_classes" = Option.none)
    (hlm2 : dictLookup kwargs2 "label_mapping" = Option.none)
    (h1 : RestrictedImageNet.mk data_path kwargs = .ok d)
    (h2 : CustomImageNet.mk data_path2 grouping kwargs2 = .ok d2) :
    (d.num_classes = Value.int RESTRICTED_IMAGNET_RANGES.length ∧
     numGroupsV d.label_mapping = some RESTRICTED_IMAGNET_RANGES.length) ∧
    (d2.num_classes = Value.int grouping.length ∧
     numGroupsV d2.label_mapping = some grouping.length) := by
  unfold RestrictedImageNet.mk at h1
  unfold CustomImageNet.mk at h2
  obtain ⟨m1, ho1, hi1⟩ := except_bind_ok h1
  obtain ⟨m2, ho2, hi2⟩ := except_bind_ok h2
  have hm1 : m1 = dictMerge restricted_defaults kwargs := override_args_ok ho1
  have hm2 : m2 = dictMerge (custom_defaults grouping) kwargs2 := override_args_ok ho2
  subst hm1
  subst hm2
  obtain ⟨_, hd1⟩ := DataSet.init_ok_inv hi1
  obtain ⟨_, hd2⟩ := DataSet.init_ok_inv hi2
  subst hd1
  subst hd2
  refine ⟨⟨?_, ?_⟩, ?_, ?_⟩
  · show (dictLookup (dictMerge restricted_defaults kwargs) "num_classes").getD
        Value.null = Value.int RESTRICTED_IMAGNET_RANGES.length
    rw [dictLookup_merge, hnc]
    rfl
  · show numGroupsV ((dictLookup (dictMerge restricted_defaults kwargs)
        "label_mapping").getD Value.null) = some RESTRICTED_IMAGNET_RANGES.length
    rw [dictLookup_merge, hlm]
    rfl
  · show (dictLookup (dictMerge (custom_defaults grouping) kwargs2)
        "num_classes").getD Value.null = Value.int grouping.length
    rw [dictLookup_merge, hnc2]
    rfl
  · show numGroupsV ((dictLookup (dictMerge (custom_defaults grouping) kwargs2)
        "label_mapping").getD Value.null) = some grouping.length
    rw [dictLookup_merge, hlm2]
    rfl

/-- Witness for C9 (amended) on the no-override constructions of both
label-mapped variants. -/
theorem class_count_matches_group_count_witness :
    dictLookup ([] : Dict) "num_classes" = Option.none ∧
    RestrictedImageNet.mk "/data" [] = .ok restrictedD ∧
    CustomImageNet.mk "/data" grouping0 [] = .ok customD ∧
    ((restrictedD.num_classes = Value.int RESTRICTED_IMAGNET_RANGES.length ∧
      numGroupsV restrictedD.label_mapping = some RESTRICTED_IMAGNET_RANGES.length) ∧
     (customD.num_classes = Value.int grouping0.length ∧
      numGroupsV customD.label_mapping = some grouping0.length)) :=
  ⟨rfl, rfl, rfl,
   class_count_matches_group_count "/data" "/data" grouping0 [] []
     restrictedD customD rfl rfl rfl rfl rfl rfl⟩

/-! ### Claim C10 -/

/-- C10: `ImageNet.get_model` forwards the `pretrained` flag unchanged
to the architecture builder and never rejects `pretrained=True`: for
every architecture name present in the registry, the lookup succeeds and
the selected builder is applied to the descriptor's class count and the
unchanged `pretrained` flag (so `pretrained=True` requests pretrained
weights). -/
theorem imagenet_forwards_pretrained (registry : List String) (d : DataSet)
    (arch : String) (pretrained : Bool)
    (h : registry.contains arch = true) :
    ImageNet.get_model registry d arch pretrained =
      .ok ⟨arch, d.num_classes, some pretrained⟩ := by
  have hmem : arch ∈ registry := by simpa using h
  simp [ImageNet.get_model, hmem]

/-- Witness for C10 at a concrete registry hit with `pretrained=True`. -/
theorem imagenet_forwards_pretrained_witness :
    (["resnet50"] : List String).contains "resnet50" = true ∧
    ImageNet.get_model ["resnet50"] imagenetD "resnet50" true =
      .ok ⟨"resnet50", imagenetD.num_classes, some true⟩ :=
  ⟨rfl, imagenet_forwards_pretrained ["resnet50"] imagenetD "resnet50" true rfl⟩

end RobustnessDatasets
